import Mathlib

/-!
Verification of the learning-factory server core: the CNC-lathe frame codec
(CNCLatheInterface._parse_msg), the poller poll/publish loop
(MachineInterface.run / CNCLatheInterface._poll_machine), the publish path
(MachineInterface._publish_data over zmq send_multipart), the port topology of
LFServer.__init__ / MachineInterface.__init__, and the aggregator forward and
shutdown paths (LFServer.run / stop / _send_data / _exit_thread).

Bytes are modelled as Fin 256, Python byte strings as List Byte, exceptions as
Except, and the zmq/thread effects as explicit event lists and state records.
-/

/-- A single byte, as in a Python bytes object. -/
abbrev Byte := Fin 256

/-- The field delimiter byte, ord of the comma character. -/
def comma : Byte := 44

/-- The message terminator byte, ord of the semicolon character. -/
def semicolon : Byte := 59

/-- Decode failures of CNCLatheInterface._parse_msg.  In the source both are
raised as RuntimeError with distinct messages: malformedFrame is the
RuntimeError with message starting with the words Message is malformed,
checksumMismatch is the RuntimeError whose message reports a derived checksum
that does not match the message checksum.  wrongLength covers inputs that are
not 8 bytes long; the poller always reads exactly 8 bytes (get_msg(8)), so no
claim depends on that case and the Python slice/struct behaviour on other
lengths is not modelled further. -/
inductive ParseError where
  | malformedFrame
  | checksumMismatch
  | wrongLength
deriving DecidableEq

/-- Semantics of struct.unpack with format !? on one byte: any nonzero byte
decodes to True. -/
def unpackBool (b : Byte) : Bool := b.val != 0

/-- Semantics of struct.unpack with format !H on two bytes: big-endian
unsigned 16-bit integer. -/
def unpackU16 (hi lo : Byte) : Nat := hi.val * 256 + lo.val

/-- Semantics of struct.pack with format !? on a bool: one byte, 1 for True
and 0 for False. -/
def packBool (b : Bool) : List Byte := [if b then 1 else 0]

/-- Semantics of struct.pack with format !H: two big-endian bytes.  (For
n at least 2 to the 16 the Python call raises; the uses below stay in range.) -/
def packU16 (n : Nat) : List Byte :=
  [⟨n / 256 % 256, by omega⟩, ⟨n % 256, by omega⟩]

/-- CNCLatheInterface._parse_msg (src/server/machine_interfaces/cnc_lathe.py,
lines 55-84).  Checks the three delimiter bytes at offsets 1, 4, 7 against
comma, comma, semicolon; unpacks door_open from byte 0 (format !?),
spindle_speed from bytes 2-3 (format !H) and the checksum from bytes 5-6
(format !H); compares the checksum to int(door_open) + spindle_speed; returns
the pair (door_open, spindle_speed). -/
def parse_msg : List Byte → Except ParseError (Bool × Nat)
  | [b0, d1, b2, b3, d4, c5, c6, d7] =>
    if d1 ≠ comma ∨ d4 ≠ comma ∨ d7 ≠ semicolon then
      Except.error ParseError.malformedFrame
    else
      let door_open := unpackBool b0
      let spindle_speed := unpackU16 b2 b3
      let checksum := unpackU16 c5 c6
      let derived_checksum := door_open.toNat + spindle_speed
      if checksum ≠ derived_checksum then
        Except.error ParseError.checksumMismatch
      else
        Except.ok (door_open, spindle_speed)
  | _ => Except.error ParseError.wrongLength

/-- Machine data returned by CNCLatheInterface._poll_machine on success: the
nested dict with status door_open and rates spindle_speed. -/
structure MachineData where
  door_open : Bool
  spindle_speed : Nat
deriving DecidableEq

/-- Python exceptions escaping _poll_machine: the re-raised RuntimeError (the
fail_hard branch) or the RuntimeWarning raised in the else branch.  Both are
exceptions in Python; raising either aborts the caller. -/
inductive PyExc where
  | runtimeError (e : ParseError)
  | runtimeWarning (e : ParseError)
deriving DecidableEq

/-- CNCLatheInterface._poll_machine (cnc_lathe.py, lines 29-53) applied to the
8-byte message read from the bluetooth port: parse the message; on success
return the machine-data dict; on RuntimeError, re-raise it if fail_hard, else
raise a RuntimeWarning carrying the same message.  Both branches raise, so an
exception leaves _poll_machine on every decode failure. -/
def poll_machine (fail_hard : Bool) (msg : List Byte) : Except PyExc MachineData :=
  match parse_msg msg with
  | Except.ok (door_open, spindle_speed) =>
      Except.ok ⟨door_open, spindle_speed⟩
  | Except.error err =>
      if fail_hard then Except.error (PyExc.runtimeError err)
      else Except.error (PyExc.runtimeWarning err)

/-- Outcome of MachineInterface.run over a finite list of incoming frames:
either the loop is still running after consuming them all (publishing the
listed machine data, in order), or an exception escaped _poll_machine and the
thread crashed after publishing the listed data. -/
inductive RunOutcome where
  | running (published : List MachineData)
  | crashed (published : List MachineData) (exc : PyExc)
deriving DecidableEq

/-- MachineInterface.run (base.py, lines 42-54) specialised to the CNC-lathe
poller, driven by the list of frames the bluetooth port yields: each
iteration calls _poll_machine and hands the result to _publish_data.  run has
no exception handler, so any exception from _poll_machine propagates and
terminates the thread.  The published list records the machine data handed to
_publish_data; the wire format of that publish call is modelled separately by
publish_data_frames / sendMultipart. -/
def pollerRun (fail_hard : Bool) : List (List Byte) → RunOutcome
  | [] => RunOutcome.running []
  | msg :: rest =>
    match poll_machine fail_hard msg with
    | Except.error e => RunOutcome.crashed [] e
    | Except.ok d =>
      match pollerRun fail_hard rest with
      | RunOutcome.running pubs => RunOutcome.running (d :: pubs)
      | RunOutcome.crashed pubs e => RunOutcome.crashed (d :: pubs) e

/-- Python objects as they cross the zmq boundary: a frame of a multipart
message must be a bytes object; anything else makes send_multipart raise
TypeError.  Dict entries model the machine-data dictionaries. -/
inductive PyObj where
  | pyNone
  | pyBool (b : Bool)
  | pyInt (n : Int)
  | pyStr (s : String)
  | pyBytes (bs : List Nat)
  | pyDict (entries : List (PyObj × PyObj))

/-- Whether a Python object is a bytes object (acceptable as a zmq frame). -/
def PyObj.isBytesObj : PyObj → Bool
  | PyObj.pyBytes _ => true
  | _ => false

/-- Encoding of a Python str as UTF-8 bytes, as bytes(s, utf-8). -/
def strBytes (s : String) : List Nat :=
  s.toUTF8.toList.map (fun b => b.toNat)

/-- Error raised by zmq socket operations in the model. -/
inductive SendError where
  | typeError
deriving DecidableEq

/-- zmq Socket.send_multipart applied to a list of message frames: succeeds
only when every frame is a bytes-like object, otherwise raises TypeError. -/
def sendMultipart (frames : List PyObj) : Except SendError Unit :=
  if frames.all PyObj.isBytesObj then Except.ok () else Except.error SendError.typeError

/-- MachineInterface._publish_data (base.py, lines 72-85): the frame list it
hands to publish_socket.send_multipart, namely
[bytes(machine_name, utf-8), machine_data].  The machine data is passed
as-is: no serialization is applied to it. -/
def publish_data_frames (machine_name : String) (machine_data : PyObj) : List PyObj :=
  [PyObj.pyBytes (strBytes machine_name), machine_data]

/-- zmq bind errors in the port model. -/
inductive ZMQError where
  | addrInUse
deriving DecidableEq

/-- Binding a TCP port given the list of ports already bound on the host:
fails with EADDRINUSE when the port is already bound, otherwise records it. -/
def bindPort (bound : List Nat) (p : Nat) : Except ZMQError (List Nat) :=
  if p ∈ bound then Except.error ZMQError.addrInUse else Except.ok (p :: bound)

/-- Socket setup of MachineInterface.__init__ (base.py, lines 27-36): builds
publish_address tcp://*:publish_port and calls publish_socket.bind on it. -/
def machineInterfaceInitSockets (bound : List Nat) (publish_port : Nat) :
    Except ZMQError (List Nat) :=
  bindPort bound publish_port

/-- Poller construction loop of LFServer.__init__ : each machine config has
had its port set to the receive port, and each instantiated interface runs
the base-class socket setup with that port as publish_port. -/
def lfServerConstructPollers (bound : List Nat) (publish_port : Nat) :
    Nat → Except ZMQError (List Nat)
  | 0 => Except.ok bound
  | n + 1 =>
    match machineInterfaceInitSockets bound publish_port with
    | Except.error e => Except.error e
    | Except.ok bound2 => lfServerConstructPollers bound2 publish_port n

/-- Port actions of LFServer.__init__ (server.py, lines 63-84) starting from a
host with no bound ports: bind the receive socket on receive_port, inject
that port into every machine config, then instantiate the machine interfaces
(numMachines of them).  The sink sockets only connect and are omitted. -/
def lfServerInitPorts (receive_port : Nat) (numMachines : Nat) :
    Except ZMQError (List Nat) :=
  match bindPort [] receive_port with
  | Except.error e => Except.error e
  | Except.ok bound => lfServerConstructPollers bound receive_port numMachines

/-- The two downstream sinks of the aggregator. -/
inductive Sink where
  | digitalDash
  | virtualFactory
deriving DecidableEq

/-- Observable effects of the aggregator thread. -/
inductive ServerEvent where
  | setStopFlag
  | sendToSink (s : Sink) (payload : PyObj)
  | stopPoller (machine_name : String)
  | destroyContext

/-- Aggregator state: its stop flag, the poller registry (machine name paired
with that poller's own stop flag), and whether its zmq context is alive. -/
structure ServerState where
  stopped : Bool
  pollers : List (String × Bool)
  contextAlive : Bool

/-- LFServer._send_data (server.py, lines 129-141): send the machine-data
dict to the digital dashboard socket, then to the virtual factory socket. -/
def send_data (machine_data : PyObj) : List ServerEvent :=
  [ServerEvent.sendToSink Sink.digitalDash machine_data,
   ServerEvent.sendToSink Sink.virtualFactory machine_data]

/-- LFServer._exit_thread (server.py, lines 143-150): call stop() on every
machine interface in the registry, in registry order, then destroy the zmq
context. -/
def exit_thread (st : ServerState) : List ServerEvent × ServerState :=
  (st.pollers.map (fun p => ServerEvent.stopPoller p.1) ++ [ServerEvent.destroyContext],
   ⟨st.stopped, st.pollers.map (fun p => (p.1, true)), false⟩)

/-- LFServer.stop (server.py, lines 113-115): set the stop flag. -/
def lfStop (st : ServerState) : List ServerEvent × ServerState :=
  ([ServerEvent.setStopFlag], ⟨true, st.pollers, st.contextAlive⟩)

/-- Result of LFServer.run over a finite list of already-received messages:
either the loop observed the stop flag and exited through _exit_thread, or it
consumed every message and is blocked on the next receive. -/
inductive ServerRunResult where
  | exited (events : List ServerEvent) (final : ServerState)
  | blockedOnRecv (events : List ServerEvent) (st : ServerState)

/-- Events of a run result. -/
def ServerRunResult.events : ServerRunResult → List ServerEvent
  | ServerRunResult.exited evs _ => evs
  | ServerRunResult.blockedOnRecv evs _ => evs

/-- LFServer.run (server.py, lines 94-111) driven by the list of messages the
receive socket yields, each already unpickled by _recv_data into the pair of
machine name bytes and machine data: while the stop flag is unset, receive
one pair, wrap it as the single-key dict and forward it via _send_data; when
the flag is observed, exit through _exit_thread. -/
def lfRun (st : ServerState) : List (List Nat × PyObj) → ServerRunResult
  | [] =>
    if st.stopped then
      ServerRunResult.exited (exit_thread st).1 (exit_thread st).2
    else ServerRunResult.blockedOnRecv [] st
  | (machine_name, machine_data) :: rest =>
    if st.stopped then
      ServerRunResult.exited (exit_thread st).1 (exit_thread st).2
    else
      let evs := send_data (PyObj.pyDict [(PyObj.pyBytes machine_name, machine_data)])
      match lfRun st rest with
      | ServerRunResult.exited evs2 stF => ServerRunResult.exited (evs ++ evs2) stF
      | ServerRunResult.blockedOnRecv evs2 st2 =>
          ServerRunResult.blockedOnRecv (evs ++ evs2) st2

/-- C6: any wrong delimiter byte at offset 1, 4 or 7 makes decode fail with the
malformed-frame error, regardless of position and of all other bytes. -/
theorem parse_msg_bad_delimiter_malformed
    (b0 d1 b2 b3 d4 c5 c6 d7 : Byte)
    (h : d1 ≠ comma ∨ d4 ≠ comma ∨ d7 ≠ semicolon) :
    parse_msg [b0, d1, b2, b3, d4, c5, c6, d7] =
      Except.error ParseError.malformedFrame := by
  simp only [parse_msg, if_pos h]

/-- Witness for C6 at a concrete frame: first delimiter mutated to the byte X. -/
theorem parse_msg_bad_delimiter_malformed_witness :
    ((88 : Byte) ≠ comma ∨ (44 : Byte) ≠ comma ∨ (59 : Byte) ≠ semicolon) ∧
    parse_msg [0, 88, 0, 0, 44, 0, 0, 59] =
      Except.error ParseError.malformedFrame :=
  ⟨by decide,
   parse_msg_bad_delimiter_malformed 0 88 0 0 44 0 0 59 (by decide)⟩

/-- C5 counterexample: a frame whose checksum field (5) differs from the
derived checksum (0) but whose first delimiter is also wrong fails with the
malformed-frame error, not the checksum error, because _parse_msg checks the
delimiters first.  This refutes the claim as stated (no further
precondition). -/
theorem parse_msg_checksum_counterexample :
    unpackU16 0 5 ≠ (unpackBool 0).toNat + unpackU16 0 0 ∧
    parse_msg [0, 88, 0, 0, 44, 0, 5, 59] =
      Except.error ParseError.malformedFrame ∧
    ParseError.malformedFrame ≠ ParseError.checksumMismatch := by
  refine ⟨by decide, ?_, by decide⟩
  rfl

/-- C5 amended: for every 8-byte frame WITH CORRECT DELIMITERS whose checksum
field (bytes 5-6, big-endian u16) differs from int(flag) + value, decode fails
with the checksum error. -/
theorem parse_msg_checksum_mismatch
    (b0 b2 b3 c5 c6 : Byte)
    (hck : unpackU16 c5 c6 ≠ (unpackBool b0).toNat + unpackU16 b2 b3) :
    parse_msg [b0, comma, b2, b3, comma, c5, c6, semicolon] =
      Except.error ParseError.checksumMismatch := by
  simp only [parse_msg]
  rw [if_neg (by simp)]
  rw [if_pos hck]

/-- Witness for C5 amended at a concrete frame: all bytes zero except a
checksum field of 5. -/
theorem parse_msg_checksum_mismatch_witness :
    unpackU16 0 5 ≠ (unpackBool 0).toNat + unpackU16 0 0 ∧
    parse_msg [0, comma, 0, 0, comma, 0, 5, semicolon] =
      Except.error ParseError.checksumMismatch :=
  ⟨by decide, parse_msg_checksum_mismatch 0 0 0 0 5 (by decide)⟩

/-- C4 counterexample: the frame with byte 0 equal to 2 satisfies every
hypothesis of the claim (delimiters correct; checksum field 6 equals
int(flag) + value with flag the byte-0 boolean, namely 1 + 5), decode
succeeds returning the boolean flag and the value, yet re-packing the
returned door_open with the 1-byte boolean layout yields the byte 1, not the
frame byte 2: the re-pack clause of the claim fails. -/
theorem parse_msg_roundtrip_counterexample :
    (unpackU16 0 6 = (unpackBool 2).toNat + unpackU16 0 5) ∧
    parse_msg [2, comma, 0, 5, comma, 0, 6, semicolon] =
      Except.ok (unpackBool 2, unpackU16 0 5) ∧
    packBool (unpackBool 2) ≠ [(2 : Byte)] := by
  refine ⟨by decide, ?_, by decide⟩
  rfl

/-- C4 amended: for every 8-byte frame with correct delimiters, byte 0 a
canonical packed boolean (0 or 1), and checksum field equal to
int(flag) + value, decode succeeds returning exactly the boolean flag of
byte 0 and the big-endian u16 at bytes 2-3, and re-packing the returned
fields with the same layout reproduces byte 0 and bytes 2-3. -/
theorem parse_msg_roundtrip
    (b0 b2 b3 c5 c6 : Byte)
    (hb0 : b0.val ≤ 1)
    (hck : unpackU16 c5 c6 = (unpackBool b0).toNat + unpackU16 b2 b3) :
    parse_msg [b0, comma, b2, b3, comma, c5, c6, semicolon] =
      Except.ok (unpackBool b0, unpackU16 b2 b3) ∧
    packBool (unpackBool b0) = [b0] ∧
    packU16 (unpackU16 b2 b3) = [b2, b3] := by
  refine ⟨?_, ?_, ?_⟩
  · simp only [parse_msg]
    rw [if_neg (by simp)]
    rw [if_neg (by simpa using hck)]
  · have h2 := b0.isLt
    simp only [packBool, unpackBool]
    rcases Nat.lt_or_ge 0 b0.val with h | h
    · have hv : b0.val = 1 := by omega
      simp [bne_iff_ne, Fin.ext_iff, hv]
    · have hv : b0.val = 0 := by omega
      simp [bne_iff_ne, Fin.ext_iff, hv]
  · have h2 := b2.isLt
    have h3 := b3.isLt
    simp only [packU16, unpackU16, List.cons.injEq, Fin.ext_iff, and_true]
    constructor <;> omega

/-- Witness for C4 amended at the concrete frame door open, speed 5,
checksum 6. -/
theorem parse_msg_roundtrip_witness :
    ((1 : Byte).val ≤ 1 ∧
      unpackU16 0 6 = (unpackBool 1).toNat + unpackU16 0 5) ∧
    (parse_msg [1, comma, 0, 5, comma, 0, 6, semicolon] =
      Except.ok (unpackBool 1, unpackU16 0 5) ∧
    packBool (unpackBool 1) = [(1 : Byte)] ∧
    packU16 (unpackU16 0 5) = [0, 5]) :=
  ⟨⟨by decide, by decide⟩, parse_msg_roundtrip 1 0 5 0 6 (by decide) (by decide)⟩

/-- C10: for every frame with correct delimiters, the boolean flag set
(byte 0 nonzero) and the value field at its maximum 65535, decode fails with
the checksum error for EVERY possible checksum field: the derived checksum
1 + 65535 = 65536 exceeds every unsigned 16-bit checksum field. -/
theorem parse_msg_overflow_always_fails
    (b0 c5 c6 : Byte) (hb0 : b0 ≠ 0) :
    parse_msg [b0, comma, 255, 255, comma, c5, c6, semicolon] =
      Except.error ParseError.checksumMismatch := by
  have hb0v : b0.val ≠ 0 := by
    intro h
    exact hb0 (Fin.ext h)
  have hflag : unpackBool b0 = true := by
    simp [unpackBool, bne_iff_ne, hb0v]
  have h5 := c5.isLt
  have h6 := c6.isLt
  have hck : unpackU16 c5 c6 ≠ (unpackBool b0).toNat + unpackU16 255 255 := by
    simp only [unpackU16, hflag, Bool.toNat_true]
    show c5.val * 256 + c6.val ≠ 1 + ((255 : Byte).val * 256 + (255 : Byte).val)
    have : (255 : Byte).val = 255 := rfl
    omega
  exact parse_msg_checksum_mismatch b0 255 255 c5 c6 hck

/-- C7: under fail_hard = true, any frame on which decode fails makes
_poll_machine re-raise the decode error as a RuntimeError; the run loop has
no handler, so the thread crashes having published nothing, whatever frames
would have followed. -/
theorem poller_fail_hard_terminates
    (msg : List Byte) (rest : List (List Byte)) (e : ParseError)
    (h : parse_msg msg = Except.error e) :
    poll_machine true msg = Except.error (PyExc.runtimeError e) ∧
    pollerRun true (msg :: rest) =
      RunOutcome.crashed [] (PyExc.runtimeError e) := by
  have hp : poll_machine true msg = Except.error (PyExc.runtimeError e) := by
    simp [poll_machine, h]
  exact ⟨hp, by simp [pollerRun, hp]⟩

/-- Witness for C7 at a concrete malformed frame (bad first delimiter). -/
theorem poller_fail_hard_terminates_witness :
    parse_msg [0, 88, 0, 0, 44, 0, 0, 59] =
      Except.error ParseError.malformedFrame ∧
    (poll_machine true [0, 88, 0, 0, 44, 0, 0, 59] =
      Except.error (PyExc.runtimeError ParseError.malformedFrame) ∧
    pollerRun true [[0, 88, 0, 0, 44, 0, 0, 59]] =
      RunOutcome.crashed [] (PyExc.runtimeError ParseError.malformedFrame)) :=
  ⟨rfl, poller_fail_hard_terminates [0, 88, 0, 0, 44, 0, 0, 59] [] ParseError.malformedFrame rfl⟩

/-- C1 divergence: under fail_hard = false a malformed frame does leave the
published list empty, but the else branch raises a RuntimeWarning, which is an
exception: it escapes _poll_machine and the unguarded run loop crashes on the
first malformed frame instead of continuing.  Evaluated at a frame with a bad
first delimiter, repeated three times. -/
theorem poller_fail_soft_crashes :
    poll_machine false [0, 88, 0, 0, 44, 0, 0, 59] =
      Except.error (PyExc.runtimeWarning ParseError.malformedFrame) ∧
    pollerRun false
        [[0, 88, 0, 0, 44, 0, 0, 59],
         [0, 88, 0, 0, 44, 0, 0, 59],
         [0, 88, 0, 0, 44, 0, 0, 59]] =
      RunOutcome.crashed [] (PyExc.runtimeWarning ParseError.malformedFrame) :=
  ⟨rfl, rfl⟩

/-- C3 divergence: for every machine name and machine-data dict, the second
frame _publish_data hands to send_multipart is the dict itself, not a bytes
object, so the publish call raises TypeError; in particular no pickled bytes
payload reaches the channel for _recv_data to unpickle. -/
theorem publish_data_frames_not_bytes
    (machine_name : String) (entries : List (PyObj × PyObj)) :
    PyObj.isBytesObj (PyObj.pyDict entries) = false ∧
    sendMultipart (publish_data_frames machine_name (PyObj.pyDict entries)) =
      Except.error SendError.typeError := by
  constructor
  · rfl
  · simp [sendMultipart, publish_data_frames, PyObj.isBytesObj]

/-- C2 divergence: with no port bound, the aggregator binds its receive port
successfully; but constructing any machine interface on that port runs the
base-class socket setup, which binds tcp://*:receive_port a second time and
fails with EADDRINUSE; hence LFServer.__init__ with at least one machine
config fails. -/
theorem lf_server_poller_bind_fails
    (receive_port : Nat) (numMachines : Nat) (h : 1 ≤ numMachines) :
    bindPort [] receive_port = Except.ok [receive_port] ∧
    machineInterfaceInitSockets [receive_port] receive_port =
      Except.error ZMQError.addrInUse ∧
    lfServerInitPorts receive_port numMachines = Except.error ZMQError.addrInUse := by
  have hbind : bindPort [] receive_port = Except.ok [receive_port] := by
    simp [bindPort]
  have hmach : machineInterfaceInitSockets [receive_port] receive_port =
      Except.error ZMQError.addrInUse := by
    simp [machineInterfaceInitSockets, bindPort]
  refine ⟨hbind, hmach, ?_⟩
  cases numMachines with
  | zero => omega
  | succ n =>
    simp [lfServerInitPorts, hbind, lfServerConstructPollers, hmach]

/-- Witness for C2 divergence at port 5555 with one machine config. -/
theorem lf_server_poller_bind_fails_witness :
    1 ≤ 1 ∧
    (bindPort [] 5555 = Except.ok [5555] ∧
    machineInterfaceInitSockets [5555] 5555 = Except.error ZMQError.addrInUse ∧
    lfServerInitPorts 5555 1 = Except.error ZMQError.addrInUse) :=
  ⟨by decide, lf_server_poller_bind_fails 5555 1 (by decide)⟩

/-- C8: whenever the aggregator run loop, with its stop flag unset, receives
a pair of machine name and machine data, the next two effects are the sends
of the single-key dict mapping the name to the unchanged data, first to the
digital dashboard sink, then to the virtual factory sink. -/
theorem lf_run_forwards_to_both_sinks
    (st : ServerState) (machine_name : List Nat) (machine_data : PyObj)
    (rest : List (List Nat × PyObj)) (h : st.stopped = false) :
    ∃ tail,
      (lfRun st ((machine_name, machine_data) :: rest)).events =
        ServerEvent.sendToSink Sink.digitalDash
            (PyObj.pyDict [(PyObj.pyBytes machine_name, machine_data)]) ::
          ServerEvent.sendToSink Sink.virtualFactory
            (PyObj.pyDict [(PyObj.pyBytes machine_name, machine_data)]) :: tail := by
  cases hr : lfRun st rest with
  | exited evs2 stF =>
    refine ⟨evs2, ?_⟩
    simp [lfRun, h, hr, send_data, ServerRunResult.events]
  | blockedOnRecv evs2 st2 =>
    refine ⟨evs2, ?_⟩
    simp [lfRun, h, hr, send_data, ServerRunResult.events]

/-- Witness for C8: one reading forwarded, no further traffic, from a fresh
running server state. -/
theorem lf_run_forwards_to_both_sinks_witness :
    (ServerState.mk false [] true).stopped = false ∧
    ∃ tail,
      (lfRun (ServerState.mk false [] true)
          [(strBytes "machine_1", PyObj.pyInt 5)]).events =
        ServerEvent.sendToSink Sink.digitalDash
            (PyObj.pyDict [(PyObj.pyBytes (strBytes "machine_1"), PyObj.pyInt 5)]) ::
          ServerEvent.sendToSink Sink.virtualFactory
            (PyObj.pyDict [(PyObj.pyBytes (strBytes "machine_1"), PyObj.pyInt 5)]) :: tail :=
  ⟨rfl,
   lf_run_forwards_to_both_sinks (ServerState.mk false [] true)
     (strBytes "machine_1") (PyObj.pyInt 5) [] rfl⟩

/-- C9: for every server state and any pending messages, calling stop sets
the stop flag, and the run loop, observing it, exits through _exit_thread:
the combined effect trace is the flag set, then one stop per registry entry
in registry order, then the context destruction; in the final state every
poller in the registry is stopped and the channels are released. -/
theorem lf_stop_then_run_shutdown
    (st : ServerState) (msgs : List (List Nat × PyObj)) :
    (lfStop st).1 ++ (lfRun (lfStop st).2 msgs).events =
      ServerEvent.setStopFlag ::
        (st.pollers.map (fun p => ServerEvent.stopPoller p.1) ++
          [ServerEvent.destroyContext]) ∧
    lfRun (lfStop st).2 msgs =
      ServerRunResult.exited
        (st.pollers.map (fun p => ServerEvent.stopPoller p.1) ++
          [ServerEvent.destroyContext])
        (ServerState.mk true (st.pollers.map (fun p => (p.1, true))) false) := by
  cases msgs with
  | nil =>
    constructor
    · simp [lfStop, lfRun, exit_thread, ServerRunResult.events]
    · simp [lfStop, lfRun, exit_thread]
  | cons m rest =>
    cases m with
    | mk machine_name machine_data =>
      constructor
      · simp [lfStop, lfRun, exit_thread, ServerRunResult.events]
      · simp [lfStop, lfRun, exit_thread]

/-- Witness for C10 at the frame with flag byte 1, value 65535 and the
largest possible checksum field 65535. -/
theorem parse_msg_overflow_always_fails_witness :
    (1 : Byte) ≠ 0 ∧
    parse_msg [1, comma, 255, 255, comma, 255, 255, semicolon] =
      Except.error ParseError.checksumMismatch :=
  ⟨by decide, parse_msg_overflow_always_fails 1 255 255 (by decide)⟩
